import Mathlib

/-!
Shallow embedding of `src/econmodel.py` (small-business lifecycle simulation).

Modelling conventions:
* Python numbers are modelled as `Int` (the claims under study are
  order/algebraic and do not depend on float rounding).
* A Python exception is modelled as `City × Option PyErr`: the first component
  is the state as mutated up to the raise point (CPython has no rollback), the
  second is `some e` when the call raised `e`.
* The source runs under Python 2 (`xrange` at line 147): iterating a dict
  yields its keys, and the `remove` of a list element removes the first
  element equal (by identity) to the argument; businesses are therefore
  identified positionally in the embedding.
* The global random streams of `numpy`/`scipy`/`random` (external libraries,
  not part of this repository) are modelled, following spec section 5
  ("the random source must be a single, seedable stream consumed in a fixed
  traversal order"), as a single `Nat` stream state threaded through `City`;
  a Poisson draw is a natural number produced from that state.
-/

/-- A Python runtime error, tagged with the offending attribute / name. -/
inductive PyErr where
  | attributeError (attr : String)
  | nameError (n : String)
  deriving DecidableEq, Repr

/-- `DemandType.__init__` (src/econmodel.py lines 248-251). -/
structure DemandType where
  dname : String
  dlambda : Int
  dprice : Int
  deriving DecidableEq, Repr

/-- `BusinessType.__init__` fields (lines 226-232); the source's
`self.bname = btype` NameError is irrelevant to the claims, which only read
the numeric fields of already-built type records. -/
structure BusinessType where
  bname : String
  initial_cash : Int
  initial_need_threshold : Int
  initial_need_radius : Int
  burnrate : Int
  deriving DecidableEq, Repr

/-- `BusinessLocation` (lines 213-223): a fixed integer point plus the
`available` flag toggled by `free`/`fill`. -/
structure BusinessLocation where
  location : Int × Int
  available : Bool
  deriving DecidableEq, Repr

/-- `Business` fields (lines 186-195). `blocation` stores the location key of
the `BusinessLocation` the business occupies. -/
structure Business where
  name : String
  blocation : Int × Int
  btype : BusinessType
  cash : Int
  birthday : Nat
  deathday : Option Nat
  lifespan : Option Int
  deriving DecidableEq, Repr

/-- `Person` fields (lines 151-156); `needs` is the dict mapping demand-type
name to accumulated need. -/
structure Person where
  name : String
  location : Int × Int
  needs : List (String × Int)
  deriving DecidableEq, Repr

/-- `City` fields (lines 36-48); `rng` is the state of the single seedable
random stream (see the module conventions above). -/
structure City where
  name : String
  size : Int
  age : Nat
  dtypes : List DemandType
  btypes : List BusinessType
  people : List Person
  businesses : List Business
  business_locations : List BusinessLocation
  failed_businesses : List Business
  rng : Nat
  deriving DecidableEq, Repr

/-- One pseudo-random draw: from a stream state, a natural-number Poisson
sample and the successor stream state.  Models `poisson.rvs` consuming the
global stream; any function into `Nat` is a faithful abstraction for the
claims at hand (samples are non-negative integers). -/
def pyDraw (s : Nat) : Nat × Nat :=
  (s % 4, (s * 1103515245 + 12345) % 2147483648)

/-- `self.needs[n] += d` on the needs dict (line 176): add `d` to the entry
with key `k`. -/
def updNeed (needs : List (String × Int)) (k : String) (d : Int) :
    List (String × Int) :=
  needs.map (fun kv => if kv.1 = k then (kv.1, kv.2 + d) else kv)

/-- `Person.init_needs` (lines 158-162): every demand type starts at need 0. -/
def init_needs (dtypes : List DemandType) : List (String × Int) :=
  dtypes.map (fun dt => (dt.dname, 0))

/-- One iteration of the loop in `Person.generate` (lines 175-177): draw a
Poisson sample for the demand type and add `draw * dprice` to the need. -/
def genStep (acc : Person × Nat) (dt : DemandType) : Person × Nat :=
  (⟨acc.1.name, acc.1.location,
    updNeed acc.1.needs dt.dname (((pyDraw acc.2).1 : Int) * dt.dprice)⟩,
   (pyDraw acc.2).2)

/-- `Person.generate` (lines 171-177). -/
def Person.generate (dtypes : List DemandType) (p : Person) (r : Nat) :
    Person × Nat :=
  dtypes.foldl genStep (p, r)

/-- `Person.fulfill` (lines 179-183): the body is `pass`, so the call does
nothing at all. -/
def Person.fulfill (p : Person) : Person := p

/-- `City.bizfail` (lines 107-113), acting on the business at index `i`:
append it to `failed_businesses`, remove it from `businesses`, and then
attempt `self.business_locations[business.location].free()` — which raises
`AttributeError` because `Business` objects have a `blocation` attribute, not
`location`; the location is therefore never freed. -/
def City.bizfail (c : City) (i : Nat) : City × Option PyErr :=
  match c.businesses[i]? with
  | none => (c, none)
  | some b =>
    ({c with failed_businesses := c.failed_businesses ++ [b],
             businesses := c.businesses.eraseIdx i},
     some (PyErr.attributeError "location"))

/-- `Business.die` (lines 205-211) for the business at index `i`: record
death day and lifespan on the object (which lives in the active list), then
call `City.bizfail`. -/
def Business.die (c : City) (i : Nat) : City × Option PyErr :=
  match c.businesses[i]? with
  | none => (c, none)
  | some b =>
    let b2 : Business :=
      {b with deathday := some c.age,
              lifespan := some ((c.age : Int) - (b.birthday : Int))}
    City.bizfail {c with businesses := c.businesses.set i b2} i

/-- `Business.burn` (lines 197-203) for the business at index `i`: subtract
the type's burn rate from cash (mutating the object in place, i.e. in the
active list), then call `die` when the new cash is strictly negative. -/
def Business.burn (c : City) (i : Nat) : City × Option PyErr :=
  match c.businesses[i]? with
  | none => (c, none)
  | some b =>
    let b1 : Business := {b with cash := b.cash - b.btype.burnrate}
    let c1 : City := {c with businesses := c.businesses.set i b1}
    if b1.cash < 0 then Business.die c1 i else (c1, none)

/-- The startup-evaluation loop of `City.city_cycle` (lines 126-136).
For each location: when it is available, the inner loop `for bt in
self.btypes` iterates the *keys* of the `btypes` dict (Python 2 strings), so
its first iteration evaluates `bt.startup_score` on a `str` and raises
`AttributeError`; when `btypes` is empty the inner loop body never runs,
`best` stays `0`, and `best >= 1` is false, so no startup happens and the
loop moves on.  Occupied locations are skipped. -/
def startupLoop (c : City) : List BusinessLocation → City × Option PyErr
  | [] => (c, none)
  | bl :: rest =>
    if bl.available then
      match c.btypes with
      | [] => startupLoop c rest
      | _ :: _ => (c, some (PyErr.attributeError "startup_score"))
    else startupLoop c rest

/-- The burn loop of `City.city_cycle` (lines 139-140), as CPython runs
`for b in self.businesses: b.burn()`: an index walks the live list.  A death
raises `AttributeError` inside `bizfail` (see `City.bizfail`), aborting the
loop with the state mutated so far; in the surviving branch the list length
is unchanged and the index advances.  `fuel` starts at the list length, which
bounds the number of iterations. -/
def burnLoop : Nat → City → Nat → City × Option PyErr
  | 0, c, _ => (c, none)
  | fuel + 1, c, i =>
    if i < c.businesses.length then
      match Business.burn c i with
      | (c2, some e) => (c2, some e)
      | (c2, none) => burnLoop fuel c2 (i + 1)
    else (c, none)

/-- Phase 1 of `City.city_cycle` (lines 124-125): every person generates
needs, consuming the shared random stream in list order. -/
def genAll (c : City) : City :=
  let r := c.people.foldl
    (fun acc p =>
      let pr := Person.generate c.dtypes p acc.2
      (acc.1 ++ [pr.1], pr.2))
    (([] : List Person), c.rng)
  {c with people := r.1, rng := r.2}

/-- Phase 3 of `City.city_cycle` (lines 137-138): every person runs
`fulfill()` (whose body is `pass`). -/
def fulfillAll (c : City) : City :=
  {c with people := c.people.map Person.fulfill}

/-- Phase 1 as a fallible step (it cannot raise). -/
def genPhase (c : City) : City × Option PyErr := (genAll c, none)

/-- Phase 2 as a fallible step. -/
def startupPhase (c : City) : City × Option PyErr :=
  startupLoop c c.business_locations

/-- Phase 3 as a fallible step (it cannot raise). -/
def fulfillPhase (c : City) : City × Option PyErr := (fulfillAll c, none)

/-- Phase 4 as a fallible step. -/
def burnPhase (c : City) : City × Option PyErr :=
  burnLoop c.businesses.length c 0

/-- Sequencing of fallible steps: a raise in the first step propagates,
preserving the state at the raise point, and the second step never starts. -/
def pseq (r : City × Option PyErr) (f : City → City × Option PyErr) :
    City × Option PyErr :=
  match r with
  | (c, none) => f c
  | (c, some e) => (c, some e)

/-- `City.city_cycle` (lines 115-140): increment `age`, then run the four
loops of the source body in order, an exception anywhere aborting the rest of
the call. -/
def cityCycle (c : City) : City × Option PyErr :=
  let c1 := genAll {c with age := c.age + 1}
  match startupLoop c1 c1.business_locations with
  | (c2, some e) => (c2, some e)
  | (c2, none) =>
    let c3 := fulfillAll c2
    burnLoop c3.businesses.length c3 0

/-- `City.life` (lines 142-148): run `n` cycles; an exception in a cycle
propagates out of `life`, aborting the remaining cycles. -/
def life (c : City) : Nat → City × Option PyErr
  | 0 => (c, none)
  | n + 1 =>
    match cityCycle c with
    | (c2, none) => life c2 n
    | (c2, some e) => (c2, some e)

/-- `BusinessType.startup` (lines 241-245).  The body is
`self.city.businesses.append(Business(city, name, blocation, self))`; CPython
evaluates the callee `self.city.businesses.append` before the arguments, and
`BusinessType` instances have no `city` attribute, so the call raises
`AttributeError` immediately: no `Business` is constructed, no location is
filled, and the city is unchanged. -/
def BusinessType.startup (bt : BusinessType) (city : City)
    (blocation : BusinessLocation) (nm : String) : City × Option PyErr :=
  (city, some (PyErr.attributeError "city"))

/-- Modelled from the spec: `DemandType.demand_radius` (src/econmodel.py
lines 253-258) is a bare `pass` stub — the deciding formula is not in src/.
Spec section 4.5: "radius grows proportionally to need, with a tunable scale
and a cap at the city's size", i.e. `min (scale * need) size`. -/
def DemandType.demand_radius (dt : DemandType) (scale size need : Int) :
    Int :=
  min (scale * need) size

/-- Number of business locations currently marked occupied. -/
def occupiedCount (c : City) : Nat :=
  (c.business_locations.filter (fun bl => !bl.available)).length

/-- A call in a `Person` call sequence: `generate()` or `fulfill()`. -/
inductive POp where
  | gen
  | ful
  deriving DecidableEq, Repr

/-- Run a finite sequence of `generate`/`fulfill` calls on a person,
threading the random stream. -/
def runOps (dtypes : List DemandType) :
    List POp → Person × Nat → Person × Nat
  | [], pr => pr
  | POp.gen :: rest, pr =>
    runOps dtypes rest (Person.generate dtypes pr.1 pr.2)
  | POp.ful :: rest, pr =>
    runOps dtypes rest (Person.fulfill pr.1, pr.2)

/-- All of a person's need entries are non-negative. -/
def needsOk (p : Person) : Prop := ∀ kv ∈ p.needs, 0 ≤ kv.2

/-- The record a dying business carries into `failed_businesses`: cash after
the burn, death day stamped with the city's current age, lifespan derived. -/
def deadRecord (age : Nat) (b : Business) : Business :=
  {b with cash := b.cash - b.btype.burnrate,
          deathday := some age,
          lifespan := some ((age : Int) - (b.birthday : Int))}

/-- C1: a single `burn()` on the business at index `i` (object `b`) leaves
its cash at exactly `b.cash - b.btype.burnrate`; when that post-burn cash is
`≥ 0` (including exactly `0`) the business stays in the active list, and when
it is `< 0` the business is, within the same call, appended to
`failed_businesses` and removed from the active list (the call then raises
`AttributeError` without freeing the location, which is the subject of C2,
not of this claim). -/
theorem burn_cash_and_removal (c : City) (i : Nat) (b : Business)
    (h : c.businesses[i]? = some b) :
    (0 ≤ b.cash - b.btype.burnrate →
      Business.burn c i =
        ({c with businesses :=
            c.businesses.set i {b with cash := b.cash - b.btype.burnrate}},
         none)) ∧
    (b.cash - b.btype.burnrate < 0 →
      Business.burn c i =
        ({c with
            businesses := (c.businesses.set i (deadRecord c.age b)).eraseIdx i,
            failed_businesses := c.failed_businesses ++ [deadRecord c.age b]},
         some (PyErr.attributeError "location"))) := by
  obtain ⟨hi, -⟩ := List.getElem?_eq_some.mp h
  constructor
  · intro hpos
    simp only [Business.burn, h]
    rw [if_neg (not_lt.mpr hpos)]
  · intro hneg
    simp only [Business.burn, h]
    rw [if_pos hneg]
    simp only [Business.die]
    rw [List.getElem?_set_self hi]
    simp only [City.bizfail]
    rw [List.getElem?_set_self (by simpa using hi)]
    rw [List.set_set]
    rfl

/-- A concrete business for the C1 witness: cash 10, burn rate 4. -/
def c1WBiz : Business := ⟨"B", (0, 0), ⟨"r", 100, 1, 1, 4⟩, 10, 0, none, none⟩

/-- A concrete one-business city for the C1 witness. -/
def c1WCity : City :=
  ⟨"w", 1, 3, [], [], [], [c1WBiz], [⟨(0, 0), false⟩], [], 0⟩

/-- The C1 witness business after its burn: cash 10 - 4. -/
def c1WBizAfter : Business :=
  {c1WBiz with cash := c1WBiz.cash - c1WBiz.btype.burnrate}

/-- Witness for C1 at a concrete city (survival branch, post-burn cash 6). -/
theorem burn_cash_and_removal_witness :
    c1WCity.businesses[0]? = some c1WBiz ∧
    0 ≤ c1WBiz.cash - c1WBiz.btype.burnrate ∧
    Business.burn c1WCity 0 =
      ({c1WCity with businesses := c1WCity.businesses.set 0 c1WBizAfter},
       none) :=
  ⟨by decide, by decide,
   (burn_cash_and_removal c1WCity 0 c1WBiz (by decide)).1 (by decide)⟩

/-- C10: `Person.fulfill` (body `pass`) changes nothing: the person is
returned unchanged, and the city-wide fulfillment phase leaves the whole city
— including every person's needs, every business's cash, and the active and
failed business collections — exactly as it was. -/
theorem fulfill_changes_nothing (p : Person) (c : City) :
    Person.fulfill p = p ∧ fulfillAll c = c := by
  refine ⟨rfl, ?_⟩
  have h : c.people.map Person.fulfill = c.people := List.map_id' c.people
  simp only [fulfillAll, h]

/-- C3: `city_cycle` is exactly the strict sequential composition of the
four phases — demand generation across all people, startup evaluation across
all locations, fulfillment across all people, burn across all businesses —
each phase running city-wide to completion before the next starts (`pseq`
also makes an exception inside a phase abort everything after it, as in the
source).  Fulfillment therefore receives precisely the state produced by
this cycle's generation phase, and burn precisely the state produced by this
cycle's fulfillment phase. -/
theorem city_cycle_four_phases (c : City) :
    cityCycle c =
      pseq (pseq (pseq (genPhase {c with age := c.age + 1}) startupPhase)
        fulfillPhase) burnPhase := by
  simp only [cityCycle, genPhase, startupPhase, fulfillPhase, burnPhase, pseq]
  rcases hs : startupLoop (genAll {c with age := c.age + 1})
      (genAll {c with age := c.age + 1}).business_locations with ⟨c2, e⟩
  cases e <;> simp [hs]

/-- C5: running `life n` and then `life m` from any city state (seed
included, as the `rng` stream state is part of `City`) is identical to
running `life (n + m)` once: no hidden state persists across calls to
`life`. -/
theorem life_seq_composition (c : City) (n m : Nat) :
    life c (n + m) = pseq (life c n) (fun c2 => life c2 m) := by
  induction n generalizing c with
  | zero => simp [life, pseq, Nat.zero_add]
  | succ n ih =>
    have hnm : n + 1 + m = (n + m) + 1 := by omega
    rw [hnm]
    simp only [life]
    rcases hc : cityCycle c with ⟨c2, e⟩
    cases e with
    | none => simp [pseq, ih]
    | some e => simp [pseq]

/-- C7 (spec-modelled, see `DemandType.demand_radius`): for a non-negative
scale, the demand radius is monotonically non-decreasing in the need amount,
and for every need amount it is bounded above by the city's size. -/
theorem demand_radius_monotone_bounded (dt : DemandType)
    (scale size a b : Int) (hs : 0 ≤ scale) (hab : a ≤ b) :
    dt.demand_radius scale size a ≤ dt.demand_radius scale size b ∧
    dt.demand_radius scale size a ≤ size ∧
    dt.demand_radius scale size b ≤ size := by
  simp only [DemandType.demand_radius]
  exact ⟨min_le_min (mul_le_mul_of_nonneg_left hab hs) le_rfl,
         min_le_right _ _, min_le_right _ _⟩

/-- Witness for C7 at scale 2, size 10, needs 3 ≤ 5. -/
theorem demand_radius_monotone_bounded_witness :
    (0 : Int) ≤ 2 ∧ (3 : Int) ≤ 5 ∧
    ((DemandType.mk "food" 1 2).demand_radius 2 10 3 ≤
        (DemandType.mk "food" 1 2).demand_radius 2 10 5 ∧
      (DemandType.mk "food" 1 2).demand_radius 2 10 3 ≤ 10 ∧
      (DemandType.mk "food" 1 2).demand_radius 2 10 5 ≤ 10) :=
  ⟨by decide, by decide,
   demand_radius_monotone_bounded ⟨"food", 1, 2⟩ 2 10 3 5 (by decide)
     (by decide)⟩

/-- C8: calling `BusinessType.startup` on an occupied location raises an
error and registers nothing — the returned city is unchanged, so no second
`Business` ever appears at an occupied location.  (In fact the source's
`self.city.businesses.append(...)` raises `AttributeError` before evaluating
its argument on *every* call, occupied or not, since `BusinessType` has no
`city` attribute; the occupied case asserted by the claim is an instance of
this.) -/
theorem startup_on_occupied_errors (bt : BusinessType) (c : City)
    (bl : BusinessLocation) (nm : String) (h : bl.available = false) :
    BusinessType.startup bt c bl nm = (c, some (PyErr.attributeError "city")) :=
  rfl

/-- A concrete city for the C8 witness. -/
def c8WCity : City := ⟨"w", 1, 0, [], [], [], [], [⟨(2, 2), false⟩], [], 0⟩

/-- Witness for C8 at a concrete occupied location. -/
theorem startup_on_occupied_errors_witness :
    (BusinessLocation.mk (2, 2) false).available = false ∧
    BusinessType.startup ⟨"b", 1, 1, 1, 1⟩ c8WCity ⟨(2, 2), false⟩ "n" =
      (c8WCity, some (PyErr.attributeError "city")) :=
  ⟨rfl, startup_on_occupied_errors ⟨"b", 1, 1, 1, 1⟩ c8WCity ⟨(2, 2), false⟩
    "n" rfl⟩

/-- A business with cash 3 and burn rate 5: it dies on its next burn. -/
def c2Biz : Business := ⟨"Joes", (0, 0), ⟨"restaurant", 100, 1, 1, 5⟩, 3, 0,
  none, none⟩

/-- A city holding exactly `c2Biz`, whose location is marked occupied, so the
active/occupied invariant holds before the cycle. -/
def c2City : City :=
  ⟨"t", 1, 7, [], [], [], [c2Biz], [⟨(0, 0), false⟩], [], 0⟩

/-- C2 fails on the code: `c2City` satisfies the invariant (1 active
business, 1 occupied location), but after the cycle in which its business
fails, the business is gone from the active list while its location is still
marked occupied — `City.bizfail` raises `AttributeError` on
`business.location` (the attribute is `blocation`) before ever calling
`free()`, so the counts diverge (0 active, 1 occupied). -/
theorem bizfail_breaks_location_invariant :
    c2City.businesses.length = occupiedCount c2City ∧
    (cityCycle c2City).1.businesses.length ≠ occupiedCount (cityCycle c2City).1
    := by decide

/-- A city with one vacant location and one business type in the catalog. -/
def c4City : City :=
  ⟨"s", 1, 0, [], [⟨"cafe", 50, 1, 2, 3⟩], [], [], [⟨(1, 0), true⟩], [], 0⟩

/-- C4 fails on the code: startup evaluation over a vacant location with a
non-empty type catalog raises `AttributeError` (the loop `for bt in
self.btypes` yields dict *keys*, and a `str` has no `startup_score`), and
`BusinessType.startup` itself raises `AttributeError` on `self.city` before
constructing any `Business` — so no business is ever instantiated, no
location is ever marked occupied, and no birth cycle is ever recorded. -/
theorem startup_machinery_raises :
    (cityCycle c4City).2 = some (PyErr.attributeError "startup_score") ∧
    BusinessType.startup ⟨"cafe", 50, 1, 2, 3⟩ c4City ⟨(1, 0), true⟩ "NewCafe"
      = (c4City, some (PyErr.attributeError "city")) := by decide

/-- A city with zero people, one vacant location, one business type. -/
def c9City : City :=
  ⟨"e", 1, 0, [], [⟨"gym", 100, 1, 1, 5⟩], [], [], [⟨(0, 0), true⟩], [], 0⟩

/-- C9 fails on the code: this city has zero people, yet `city_cycle` does
not complete — its startup-evaluation phase raises `AttributeError` at the
vacant location because the loop iterates the keys of the `btypes` dict. -/
theorem zero_people_cycle_raises :
    c9City.people = [] ∧
    (cityCycle c9City).2 = some (PyErr.attributeError "startup_score") := by
  decide

/-- Updating one entry of a needs dict by a non-negative amount preserves
non-negativity of all entries. -/
theorem updNeed_nonneg (needs : List (String × Int)) (k : String) (d : Int)
    (hd : 0 ≤ d) (h : ∀ kv ∈ needs, 0 ≤ kv.2) :
    ∀ kv ∈ updNeed needs k d, 0 ≤ kv.2 := by
  intro kv hkv
  simp only [updNeed, List.mem_map] at hkv
  obtain ⟨a, ha, rfl⟩ := hkv
  by_cases hk : a.1 = k
  · simpa [hk] using add_nonneg (h a ha) hd
  · simpa [hk] using h a ha

/-- The demand-generation fold preserves non-negative needs when every
demand type's unit price is non-negative (Poisson draws are themselves
non-negative integers). -/
theorem foldl_genStep_nonneg :
    ∀ (dts : List DemandType) (pr : Person × Nat),
      (∀ dt ∈ dts, 0 ≤ dt.dprice) → needsOk pr.1 →
      needsOk (dts.foldl genStep pr).1 := by
  intro dts
  induction dts with
  | nil => intro pr _ h; simpa using h
  | cons dt rest ih =>
    intro pr hp h
    rw [List.foldl_cons]
    refine ih (genStep pr dt) (fun d hd => hp d (List.mem_cons_of_mem _ hd)) ?_
    exact updNeed_nonneg pr.1.needs dt.dname _
      (mul_nonneg (Int.natCast_nonneg _) (hp dt (List.mem_cons_self _ _))) h

/-- Any sequence of `generate`/`fulfill` calls preserves non-negative needs
(prices non-negative). -/
theorem runOps_nonneg (dtypes : List DemandType)
    (hp : ∀ dt ∈ dtypes, 0 ≤ dt.dprice) :
    ∀ (ops : List POp) (pr : Person × Nat), needsOk pr.1 →
      needsOk (runOps dtypes ops pr).1 := by
  intro ops
  induction ops with
  | nil => intro pr h; exact h
  | cons op rest ih =>
    intro pr h
    cases op with
    | gen => exact ih _ (foldl_genStep_nonneg dtypes (pr.1, pr.2) hp h)
    | ful => exact ih _ h

/-- C6: starting from `init_needs` (all entries zero), after any finite
sequence of `generate()` and `fulfill()` calls every entry of the needs
mapping is non-negative; in particular `fulfill()` (a no-op in the source)
never reduces any demand type's need below zero. Requires the catalog's unit
prices to be non-negative, since `generate` adds `draw * dprice` with a
non-negative draw. -/
theorem person_needs_stay_nonneg (dtypes : List DemandType)
    (hp : ∀ dt ∈ dtypes, 0 ≤ dt.dprice) (ops : List POp) (nm : String)
    (loc : Int × Int) (r : Nat) :
    needsOk (runOps dtypes ops (⟨nm, loc, init_needs dtypes⟩, r)).1 := by
  refine runOps_nonneg dtypes hp ops _ ?_
  intro kv hkv
  simp only [init_needs, List.mem_map] at hkv
  obtain ⟨dt, -, rfl⟩ := hkv
  exact le_refl 0

/-- Witness for C6 with one demand type of price 2 and the call sequence
`generate(); fulfill(); generate()` from stream state 0. -/
theorem person_needs_stay_nonneg_witness :
    (∀ dt ∈ [DemandType.mk "food" 1 2], 0 ≤ dt.dprice) ∧
    needsOk (runOps [DemandType.mk "food" 1 2] [POp.gen, POp.ful, POp.gen]
      (⟨"p", (0, 0), init_needs [DemandType.mk "food" 1 2]⟩, 0)).1 :=
  ⟨by decide,
   person_needs_stay_nonneg [DemandType.mk "food" 1 2] (by decide)
     [POp.gen, POp.ful, POp.gen] "p" (0, 0) 0⟩
